import Mathlib

/-!
Verification development for the content-invalidation job engine of the
trafficcontrol repository. The definitions below shallowly embed the Go
source under src/ (traffic_ops/traffic_ops_golang/invalidationjobs/
invalidationjobs.go and traffic_ops/v3-client/server_update_status.go):
pure computations become Lean functions, SQL statements become explicit
computations over a value-level database, and the request handlers become
functions from a request context to an outcome record. Collaborators of
the engine that are not part of the inspected source (the tenant ancestor
check, the conflict scanner in lib/go-tc, the if-modified-since helper,
the query-builder helper and the transaction commit/rollback machinery of
the api package) are modelled from the specification, and each such
definition says so in its doc comment.
-/

/-! ## Go string helpers -/

/-- Models Go `strings.HasPrefix s pre` as a character-list comparison:
`goStartsWith s pre` is true when `pre` is a prefix of `s`. -/
def goStartsWith (s pre : String) : Bool :=
  pre.data.isPrefixOf s.data

/-- Models Go `strings.HasSuffix s suf` (used through TrimSuffix). -/
def goEndsWith (s suf : String) : Bool :=
  suf.data.isSuffixOf s.data

/-- Models Go `strings.TrimPrefix s pre`: removes `pre` from the front of
`s` when present, otherwise returns `s` unchanged. -/
def goTrimHead (s pre : String) : String :=
  if goStartsWith s pre then s.drop pre.length else s

/-- Models Go `strings.TrimSuffix s suf`: removes `suf` from the end of
`s` when present, otherwise returns `s` unchanged. -/
def goTrimTail (s suf : String) : String :=
  if goEndsWith s suf then s.dropRight suf.length else s

/-! ## v3-client: SetUpdateServerStatusTimes (server_update_status.go, lines 80-118) -/

/-- Shallow embedding of `SetUpdateServerStatusTimes`
(traffic_ops/v3-client/server_update_status.go, lines 80-118). The four
time arguments are carried as already-formatted RFC3339 strings. The
function returns the error from line 83 when all four are nil; otherwise
it assembles the request path. Each of the four append blocks is guarded,
as in the source, by an inner `configUpdateTime != nil` test (lines 91,
97, 103 and 109), so only the first block's inner guard matches its outer
one. -/
def setUpdateServerStatusTimesPath (serverName : String)
    (configUpdateTime configApplyTime revalUpdateTime revalApplyTime : Option String) :
    Except String String :=
  if configUpdateTime.isNone && configApplyTime.isNone &&
      revalUpdateTime.isNone && revalApplyTime.isNone then
    Except.error "one must be non-nil (configUpdateTime, configApplyTime, revalUpdateTime, revalApplyTime); nothing to do"
  else
    let path := "/servers/" ++ serverName ++ "/update?"
    let queryParams : List String := []
    let queryParams := match configUpdateTime with
      | some cut =>
        if configUpdateTime.isSome then queryParams ++ ["config_update_time=" ++ cut]
        else queryParams
      | none => queryParams
    let queryParams := match configApplyTime with
      | some cat =>
        if configUpdateTime.isSome then queryParams ++ ["config_apply_time=" ++ cat]
        else queryParams
      | none => queryParams
    let queryParams := match revalUpdateTime with
      | some rut =>
        if configUpdateTime.isSome then queryParams ++ ["revalidate_update_time=" ++ rut]
        else queryParams
      | none => queryParams
    let queryParams := match revalApplyTime with
      | some rat =>
        if configUpdateTime.isSome then queryParams ++ ["revalidate_apply_time=" ++ rat]
        else queryParams
      | none => queryParams
    Except.ok (path ++ String.intercalate "&" queryParams)

/-- The error message produced by `setUpdateServerStatusTimesPath` when
every time argument is nil (server_update_status.go, line 83). -/
def allNilTimesErr : String :=
  "one must be non-nil (configUpdateTime, configApplyTime, revalUpdateTime, revalApplyTime); nothing to do"

/-! ## Control-flow traces of the mutating handlers (Create and Delete) -/

/-- The externally significant steps of a mutating request, in the sense of
the specification's control-flow section: tenant/CDN authorization, the
conflict-validator scan, the primary job-store mutation, the revalidation
flag propagation, the writing of the HTTP response, and the change-log
append. -/
inductive Step where
  | auth
  | conflictScan
  | mutation
  | reval
  | respond
  | changelog
deriving DecidableEq

/-- Which of a request's fallible steps succeed; abstracts the store and
collaborator outcomes that drive the handler's control flow. -/
structure ExecEnv where
  authOk : Bool
  mutationOk : Bool
  revalOk : Bool
  changelogOk : Bool
deriving DecidableEq

/-- Outcome of a mutating request: the HTTP status written, whether the
request transaction committed, and the ordered list of steps reached. -/
structure RunOutcome where
  status : Nat
  committed : Bool
  trace : List Step
deriving DecidableEq

/-- Shallow embedding of the control flow of `Create` (invalidationjobs.go,
lines 302-446). Step order follows the source: the tenancy and CDN
authorization checks (lines 356-377), the `insertQuery` mutation (378-400),
`setRevalFlags` (402-405), the `tc.ValidateJobUniqueness` conflict scan
(407), writing the success response (408-437), and finally
`api.CreateChangeLogRawTx` (443-445), whose result the handler does not
inspect. The commit/rollback machinery (api.HandleErr and the commit in
inf.Close) is not under src/; Modelled from the spec: any failure at any
step aborts the whole transaction with no partial effect, and a request
that runs to completion without a step failure commits. -/
def CreateRun (env : ExecEnv) : RunOutcome :=
  if env.authOk = false then
    { status := 404, committed := false, trace := [Step.auth] }
  else if env.mutationOk = false then
    { status := 500, committed := false, trace := [Step.auth, Step.mutation] }
  else if env.revalOk = false then
    { status := 500, committed := false,
      trace := [Step.auth, Step.mutation, Step.reval] }
  else if env.changelogOk = false then
    -- the 200 response is written (lines 436-437) before the change-log
    -- append (line 443); the append's failure rolls the transaction back
    -- but the response already reported success
    { status := 200, committed := false,
      trace := [Step.auth, Step.mutation, Step.reval, Step.conflictScan,
                Step.respond, Step.changelog] }
  else
    { status := 200, committed := true,
      trace := [Step.auth, Step.mutation, Step.reval, Step.conflictScan,
                Step.respond, Step.changelog] }

/-- Shallow embedding of the control flow of `Delete` (invalidationjobs.go,
lines 626-720): authorization (649-682), the `deleteQuery` mutation
(684-698), `setRevalFlags` (700-705), the success response (707-717), and
`api.CreateChangeLogRawTx` (719). Delete performs no conflict scan. The
commit/rollback machinery is modelled from the spec as in `CreateRun`. -/
def DeleteRun (env : ExecEnv) : RunOutcome :=
  if env.authOk = false then
    { status := 404, committed := false, trace := [Step.auth] }
  else if env.mutationOk = false then
    { status := 500, committed := false, trace := [Step.auth, Step.mutation] }
  else if env.revalOk = false then
    { status := 500, committed := false,
      trace := [Step.auth, Step.mutation, Step.reval] }
  else if env.changelogOk = false then
    { status := 200, committed := false,
      trace := [Step.auth, Step.mutation, Step.reval, Step.respond,
                Step.changelog] }
  else
    { status := 200, committed := true,
      trace := [Step.auth, Step.mutation, Step.reval, Step.respond,
                Step.changelog] }

/-! ## Data model: jobs, delivery services, users, tenants -/

/-- A row of the `origin` table restricted to the columns the engine reads:
the primary origin of a delivery service (insertQuery lines 61-66,
putInfoQuery line 143). -/
structure Origin where
  protocol : String
  fqdn : String
  port : Option Nat
deriving DecidableEq

/-- The origin URL string computed by the SQL expression
`protocol || '://' || fqdn || rtrim(concat(':', port), ':')`: when the
port is NULL the `concat` yields a bare `:` which `rtrim` removes. -/
def Origin.urlString (o : Origin) : String :=
  o.protocol ++ "://" ++ o.fqdn ++
    (match o.port with
     | some p => ":" ++ toString p
     | none => "")

/-- A row of the `deliveryservice` table restricted to the columns the
engine reads. -/
structure DeliveryService where
  id : Nat
  xmlID : String
  tenantID : Nat
  cdnID : Nat
deriving DecidableEq

/-- A row of the `tm_user` table restricted to the columns the engine
reads. -/
structure TMUser where
  id : Nat
  username : String
  tenantID : Nat
deriving DecidableEq

/-- A row of the `invalidation` table (the job store), as inserted by
`insertQuery` and selected by `putInfoQuery`/`readQuery`; `lastUpdated`
stands for the store-maintained `last_updated` column read by
`selectMaxLastUpdatedQuery`. -/
structure JobRow where
  id : Nat
  ttlHr : Nat
  assetURL : String
  startTime : Nat
  enteredTime : Nat
  jobUser : Nat
  jobDS : Nat
  lastUpdated : Nat
deriving DecidableEq

/-- The value-level database: the tables the handlers touch, the tenant
tree as a child-to-parent list, the `last_deleted` tombstone timestamps for
the job table, and the change-log as a list of audit strings. -/
structure DB where
  jobs : List JobRow
  dss : List DeliveryService
  origins : List (Nat × Origin)
  users : List TMUser
  tenantParent : List (Nat × Nat)
  lastDeletedJob : List Nat
  changelog : List String
deriving DecidableEq

def DB.findDS (db : DB) (i : Nat) : Option DeliveryService :=
  db.dss.find? (fun d => d.id == i)

def DB.findOrigin (db : DB) (dsid : Nat) : Option Origin :=
  (db.origins.find? (fun p => p.1 == dsid)).map (fun p => p.2)

def DB.findUserById (db : DB) (i : Nat) : Option TMUser :=
  db.users.find? (fun u => u.id == i)

def DB.findUserByName (db : DB) (n : String) : Option TMUser :=
  db.users.find? (fun u => u.username == n)

def DB.findJob (db : DB) (i : Nat) : Option JobRow :=
  db.jobs.find? (fun j => j.id == i)

/-- Walks up the tenant tree from `resTenant`, fuelled by the size of the
parent list, and reports whether `userTenant` is reached. -/
def isAncestorOrSelf (parents : List (Nat × Nat)) :
    Nat → Nat → Nat → Bool
  | 0, _, _ => false
  | fuel + 1, userTenant, resTenant =>
    if userTenant == resTenant then true
    else
      match parents.find? (fun p => p.1 == resTenant) with
      | some p => isAncestorOrSelf parents fuel userTenant p.2
      | none => false

/-- Modelled from the spec: `tenant.IsResourceAuthorizedToUserTx` (package
tenant, not under src/) decides whether the acting user's tenant is the
resource's tenant or an ancestor of it in the tenant tree. -/
def IsResourceAuthorizedToUser (db : DB) (resTenant : Nat) (u : TMUser) : Bool :=
  isAncestorOrSelf db.tenantParent (db.tenantParent.length + 1) u.tenantID resTenant

/-- Shallow embedding of `IsUserAuthorizedToModifyDSID` (invalidationjobs.go,
lines 765-776): looks up the delivery service's tenant; when no such
delivery service exists it returns `(false, nil)` to conceal the
resource's absence; otherwise it defers to the tenant ancestor check. The
unexpected-store-failure branch (line 772) is unreachable in this
embedding because the store is a value, so the error component is always
`none`. -/
def IsUserAuthorizedToModifyDSID (db : DB) (u : TMUser) (ds : Nat) :
    Bool × Option String :=
  match db.findDS ds with
  | none => (false, none)
  | some d => (IsResourceAuthorizedToUser db d.tenantID u, none)

/-- Shallow embedding of `IsUserAuthorizedToModifyJobsMadeByUsername`
(invalidationjobs.go, lines 837-848), with the same shape as the
delivery-service check but resolving the tenant through `tm_user` by
username. -/
def IsUserAuthorizedToModifyJobsMadeByUsername (db : DB) (u : TMUser)
    (name : String) : Bool × Option String :=
  match db.findUserByName name with
  | none => (false, none)
  | some t => (IsResourceAuthorizedToUser db t.tenantID u, none)

/-! ## Conflict validator -/

/-- Half-open interval intersection: `[s1, s1 + ttl1)` meets
`[s2, s2 + ttl2)`. -/
def intervalsOverlap (s1 ttl1 s2 ttl2 : Nat) : Bool :=
  decide (s1 < s2 + ttl2) && decide (s2 < s1 + ttl1)

/-- The warning text emitted for an overlapping job, referencing that
job's id. -/
def conflictWarning (j : JobRow) : String :=
  "Invalidation request duplicate, see job id: " ++ toString j.id

/-- Modelled from the spec: `tc.ValidateJobUniqueness` (lib/go-tc, not
under src/) scans existing jobs under the same delivery service whose
assetURL is a path-prefix match with the candidate in either direction and
whose interval `[startTime, startTime + ttlHours)` intersects the
candidate's; every match is emitted as a warning string referencing that
job's id, and the scan never blocks the operation. The handlers call it
after their own row mutation; per the spec's worked example the candidate's
own row is not an existing job, so this embedding takes the list of jobs
other than the candidate's row. -/
def ValidateJobUniqueness (jobs : List JobRow) (dsid : Nat) (start : Nat)
    (assetURL : String) (ttl : Nat) : List String :=
  (jobs.filter (fun j =>
      j.jobDS == dsid &&
      (goStartsWith assetURL j.assetURL || goStartsWith j.assetURL assetURL) &&
      intervalsOverlap j.startTime j.ttlHr start ttl)).map conflictWarning

/-! ## Create and Update at the data level -/

/-- An alert of the response envelope. -/
structure Alert where
  level : String
  text : String
deriving DecidableEq

/-- Outcome of a data-level mutating request: the HTTP status, the
resulting database (unchanged unless the transaction committed), the
response alerts and the returned job record. -/
structure MutResult where
  status : Nat
  db : DB
  alerts : List Alert
  job : Option JobRow
deriving DecidableEq

/-- The store-assigned id for a newly inserted job row. -/
def nextJobId (db : DB) : Nat :=
  (db.jobs.map (fun j => j.id)).foldr Nat.max 0 + 1

/-- A validated Create payload: the delivery service id resolved by
`Validate`/`DSID`, the caller-supplied path fragment (`regex`), the start
time and the parsed ttl hours. -/
structure CreateInput where
  dsid : Nat
  regex : String
  startTime : Nat
  ttlHours : Nat
deriving DecidableEq

/-- The success alert text of Create and Update (invalidationjobs.go,
lines 418-422 and 605-609). -/
def successAlertText (assetURL : String) (start ttl : Nat) : String :=
  "Invalidation request created for " ++ assetURL ++ ", start:" ++
    toString start ++ " end " ++ toString (start + ttl)

/-- The row `insertQuery` (invalidationjobs.go, lines 50-85) inserts for a
Create request: the store assigns the id, the asset_url is the delivery
service's primary origin string concatenated with the payload's path
fragment, and entered_time/last_updated are the request time. -/
def createdJob (db : DB) (u : TMUser) (inp : CreateInput) (o : Origin)
    (now : Nat) : JobRow :=
  { id := nextJobId db
    ttlHr := inp.ttlHours
    assetURL := o.urlString ++ inp.regex
    startTime := inp.startTime
    enteredTime := now
    jobUser := u.id
    jobDS := inp.dsid
    lastUpdated := now }

/-- Shallow embedding of `Create` (invalidationjobs.go, lines 302-446) at
the data level, for requests whose body already decoded and validated (the
JSON decode and `tc.InvalidationJobInput.Validate` live outside src/).
Steps follow the source: the tenancy check (356-366), the `insertQuery`
mutation whose asset_url is the delivery service's primary origin string
concatenated with the payload's path fragment (378-400; a missing primary
origin makes the inserted asset_url NULL and the insert fail, reported as
an internal error), the conflict scan (407), and the response assembly
(408-422) with one warning per conflict followed by the success alert.
The CDN-lock check (`dbhelpers.CheckIfCurrentUserCanModifyCDN`, not under
src/) is modelled as permitting, and `setRevalFlags` touches no table of
this embedding. `now` stands for `time.Now()`. -/
def Create (db : DB) (u : TMUser) (inp : CreateInput) (now : Nat) : MutResult :=
  if (IsUserAuthorizedToModifyDSID db u inp.dsid).1 = false then
    { status := 404, db := db, alerts := [], job := none }
  else
    match db.findOrigin inp.dsid with
    | none => { status := 500, db := db, alerts := [], job := none }
    | some o =>
      let newJob : JobRow := createdJob db u inp o now
      let conflicts :=
        ValidateJobUniqueness db.jobs inp.dsid inp.startTime newJob.assetURL
          inp.ttlHours
      { status := 200
        db := { db with
                jobs := db.jobs ++ [newJob]
                changelog := db.changelog ++
                  ["Created content invalidation job - ID: " ++ toString newJob.id] }
        alerts := conflicts.map (fun c => { level := "warning", text := c }) ++
          [{ level := "success"
             text := successAlertText newJob.assetURL inp.startTime inp.ttlHours }]
        job := some newJob }

/-- A decoded Update (PUT) payload, a `tc.InvalidationJob`; `parameters` is
the display string of the form `TTL:<n>h` from which the handler derives
the ttl. -/
structure UpdateInput where
  id : Nat
  deliveryService : String
  createdBy : String
  assetURL : String
  parameters : String
  startTime : Nat
deriving DecidableEq

/-- The numeric value of a digit character, `none` for a non-digit. -/
def charDigit (c : Char) : Option Nat :=
  if c.isDigit then some (c.toNat - '0'.toNat) else none

def digitsToNatAux : List Char → Nat → Option Nat
  | [], acc => some acc
  | c :: cs, acc =>
    match charDigit c with
    | some d => digitsToNatAux cs (acc * 10 + d)
    | none => none

/-- The integer cast the database applies to the ttl_hr binding of
`updateQuery` (the column is an integer, the binding a string): a nonempty
all-digit string parses to its value, anything else fails the statement. -/
def sqlNatCast (s : String) : Option Nat :=
  match s.data with
  | [] => none
  | l => digitsToNatAux l 0

/-- The ttl string the Update handler binds into `updateQuery`
(invalidationjobs.go, line 571): the payload's parameters display string
with the prefix `TTL:` and the suffix `h` stripped. -/
def ttlStringFromParameters (p : String) : String :=
  goTrimTail (goTrimHead p "TTL:") "h"

/-- The check sequence `Update` (invalidationjobs.go, lines 450-623) runs
before its `updateQuery` mutation, in source order: `putInfoQuery`
(lines 462-482; a missing row or failing inner join yields 404), the
delivery-service tenancy check (484-494), the creator tenancy check
(496-506), the JSON decode of the body (509-515) and
`tc.InvalidationJob.Validate` (517-520), both abstracted by the `decodeOk`
and `validateOk` flags because they live outside src/, the origin-prefix
validation (522-527), the already-started check (529-535, strict
`Before`), the three identity checks (537-556), and the integer cast of
the stripped parameters string bound into `updateQuery` (569-573; a
non-numeric string fails the statement, reported as an internal error).
Returns the stored row and the parsed ttl on success, the HTTP error
status otherwise. -/
def updateChecks (db : DB) (u : TMUser) (idParam : Nat)
    (decodeOk validateOk : Bool) (input : UpdateInput) (now : Nat) :
    Except Nat (JobRow × Nat) :=
  match db.findJob idParam with
  | none => Except.error 404
  | some job =>
    match db.findOrigin job.jobDS, db.findUserById job.jobUser,
        db.findDS job.jobDS with
    | some o, some creator, some d =>
      if (IsUserAuthorizedToModifyDSID db u job.jobDS).1 = false then
        Except.error 404
      else if (IsUserAuthorizedToModifyJobsMadeByUsername db u
          creator.username).1 = false then
        Except.error 404
      else if decodeOk = false then Except.error 400
      else if validateOk = false then Except.error 400
      else if goStartsWith input.assetURL o.urlString = false then
        Except.error 400
      else if job.startTime < now then Except.error 405
      else if d.xmlID ≠ input.deliveryService then Except.error 409
      else if creator.username ≠ input.createdBy then Except.error 409
      else if job.id ≠ input.id then Except.error 409
      else
        match sqlNatCast (ttlStringFromParameters input.parameters) with
        | none => Except.error 500
        | some ttl => Except.ok (job, ttl)
    | _, _, _ => Except.error 404

/-- Shallow embedding of `Update` (invalidationjobs.go, lines 450-623):
runs the checks of `updateChecks`; on failure the store is untouched and
the error status returned; on success `updateQuery` rewrites the row's
asset_url, ttl_hr and start_time (569-586), `setRevalFlags` runs (588-591,
touching no table of this embedding), the conflict scan runs over the
other jobs (593-594), and the response carries one warning per conflict
followed by the success alert (595-609). The CDN-lock check (558-567, not
under src/) is modelled as permitting. -/
def Update (db : DB) (u : TMUser) (idParam : Nat) (decodeOk validateOk : Bool)
    (input : UpdateInput) (now : Nat) : MutResult :=
  match updateChecks db u idParam decodeOk validateOk input now with
  | Except.error s => { status := s, db := db, alerts := [], job := none }
  | Except.ok (job, ttl) =>
    let updated : JobRow :=
      { job with
        assetURL := input.assetURL
        ttlHr := ttl
        startTime := input.startTime
        lastUpdated := now }
    let conflicts :=
      ValidateJobUniqueness (db.jobs.filter (fun j => j.id != job.id))
        job.jobDS input.startTime input.assetURL ttl
    { status := 200
      db := { db with
              jobs := db.jobs.map
                (fun j => if j.id = job.id then updated else j)
              changelog := db.changelog ++
                ["Updated content invalidation job - ID: " ++ toString job.id] }
      alerts := conflicts.map (fun c => { level := "warning", text := c }) ++
        [{ level := "success"
           text := successAlertText input.assetURL input.startTime ttl }]
      job := some updated }

/-! ## Read: where-clause assembly and conditional retrieval -/

/-- A conjunct of the effective Read predicate, mirroring the fragments the
handler concatenates into its WHERE clause (invalidationjobs.go, lines
204-247). -/
inductive ReadPred where
  | callerFilter (field value : String)
  | cdnFilter
  | tenantScope
  | recencyWindow
deriving DecidableEq

/-- The fixed allow-list of caller-filterable fields, the keys of
`queryParamsToSQLCols` (lines 204-213). -/
def allowedFilterKeys : List String :=
  ["id", "keyword", "assetUrl", "startTime", "userId", "createdBy",
   "deliveryService", "dsId"]

/-- Modelled from the spec: `dbhelpers.BuildWhereAndOrderByAndPagination`
(not under src/) maps the caller-supplied query parameters through the
fixed allow-list of fields; parameters outside the allow-list never reach
the query. -/
def buildCallerFilters (params : List (String × String)) : List ReadPred :=
  (params.filter (fun p => allowedFilterKeys.contains p.1)).map
    (fun p => ReadPred.callerFilter p.1 p.2)

def hasParam (params : List (String × String)) (k : String) : Bool :=
  params.any (fun p => p.1 == k)

/-- Shallow embedding of the WHERE-clause assembly of `Read`
(invalidationjobs.go, lines 204-247): the caller's allow-listed filters,
then always the tenant-scoping conjunct `ds.tenant_id = ANY(:tenants)`
(lines 242-246), then the recency-window conjunct, which lines 229-241 add
only when the request itself carries a `maxRevalDurationDays` query
parameter, then the optional cdn conjunct (lines 224-228). -/
def readWhere (params : List (String × String)) : List ReadPred :=
  let filters := buildCallerFilters params
  let cdn := if hasParam params "cdn" then [ReadPred.cdnFilter] else []
  let maxDays :=
    if hasParam params "maxRevalDurationDays" then [ReadPred.recencyWindow]
    else []
  filters ++ [ReadPred.tenantScope] ++ maxDays ++ cdn

/-- The recency-window size used by the maxDays SQL fragment (lines
232-240): the value of the global parameter `maxRevalDurationDays` in
`regex_revalidate.config`, with the SQL COALESCE defaulting it to `'90'`
when the parameter row is absent. `globalParams` is the `parameter` table
as (name, config_file, value) triples. -/
def maxRevalDurationDaysValue (globalParams : List (String × String × String)) :
    String :=
  match globalParams.find? (fun p =>
      p.1 == "maxRevalDurationDays" && p.2.1 == "regex_revalidate.config") with
  | some p => p.2.2
  | none => "90"

/-- The maximum of a list of timestamps, `none` on the empty list
(SQL `max` over an empty selection is NULL). -/
def listMaxNat : List Nat → Option Nat
  | [] => none
  | x :: xs =>
    match listMaxNat xs with
    | none => some x
    | some m => some (Nat.max x m)

/-- Shallow embedding of `selectMaxLastUpdatedQuery` (invalidationjobs.go,
lines 177-184): the maximum over the `last_updated` of the jobs matching
the WHERE clause, unioned with the `last_updated` entries of
`last_deleted` for table `'job'`; the tombstone side carries no filter
beyond the table name. -/
def maxLastUpdated (jobs : List JobRow) (sel : JobRow → Bool)
    (lastDeletedJob : List Nat) : Option Nat :=
  listMaxNat ((jobs.filter sel).map (fun j => j.lastUpdated) ++ lastDeletedJob)

/-- Outcome of a conditional Read: the HTTP status and the materialized
rows. -/
structure ReadOutcome where
  status : Nat
  rows : List JobRow
deriving DecidableEq

/-- Shallow embedding of the conditional path of `Read` (invalidationjobs.go,
lines 249-258 and 260-297). Modelled from the spec:
`ims.TryIfModifiedSinceQuery` (not under src/) runs
`selectMaxLastUpdatedQuery` and reports an IMS hit exactly when the
caller's freshness cutoff is at or after the computed maximum. On a hit
the handler returns 304 with no rows materialized; otherwise it runs the
row scan. -/
def ReadIMS (jobs : List JobRow) (lastDeletedJob : List Nat)
    (sel : JobRow → Bool) (cutoff : Nat) : ReadOutcome :=
  match maxLastUpdated jobs sel lastDeletedJob with
  | some m =>
    if m ≤ cutoff then { status := 304, rows := [] }
    else { status := 200, rows := jobs.filter sel }
  | none => { status := 200, rows := jobs.filter sel }

/-! ## Concrete fixtures used by witnesses and counterexamples -/

def exOrigin : Origin := { protocol := "http", fqdn := "o", port := none }

def exDS : DeliveryService := { id := 5, xmlID := "ds5", tenantID := 2, cdnID := 1 }

def exCreator : TMUser := { id := 7, username := "alice", tenantID := 2 }

def exUser : TMUser := { id := 8, username := "root", tenantID := 1 }

/-- Tenant 2 is a child of tenant 1, so `exUser` (tenant 1) is an ancestor
of `exCreator` and of `exDS` (both tenant 2). -/
def exTenantParent : List (Nat × Nat) := [(2, 1)]

/-- A job that has already started (startTime 0). -/
def exJobStarted : JobRow :=
  { id := 1, ttlHr := 2, assetURL := "http://o/p", startTime := 0,
    enteredTime := 0, jobUser := 7, jobDS := 5, lastUpdated := 0 }

/-- A job that has not yet started (startTime 100). -/
def exJobFuture : JobRow :=
  { id := 1, ttlHr := 2, assetURL := "http://o/p", startTime := 100,
    enteredTime := 0, jobUser := 7, jobDS := 5, lastUpdated := 0 }

def exDBEmpty : DB :=
  { jobs := [], dss := [exDS], origins := [(5, exOrigin)],
    users := [exCreator, exUser], tenantParent := exTenantParent,
    lastDeletedJob := [], changelog := [] }

def exDBStarted : DB := { exDBEmpty with jobs := [exJobStarted] }

def exDBFuture : DB := { exDBEmpty with jobs := [exJobFuture] }

/-- An Update payload whose assetURL does not start with the delivery
service's primary origin string `http://o`. -/
def exBadInput : UpdateInput :=
  { id := 1, deliveryService := "ds5", createdBy := "alice",
    assetURL := "ftp://x/p", parameters := "TTL:2h", startTime := 100 }

/-- A well-formed Update payload matching the stored identity fields, with
a properly prefixed assetURL. -/
def exGoodInput : UpdateInput :=
  { id := 1, deliveryService := "ds5", createdBy := "alice",
    assetURL := "http://o/q", parameters := "TTL:48h", startTime := 120 }

/-- The row `exJobFuture` becomes after a successful Update with
`exGoodInput` at time 5. -/
def exUpdatedJob : JobRow :=
  { exJobFuture with
    assetURL := "http://o/q"
    ttlHr := 48
    startTime := 120
    lastUpdated := 5 }

/-- A live job whose last_updated (10) is later than the tombstone entry
used in the conditional-read counterexample. -/
def exJobFresh : JobRow :=
  { id := 3, ttlHr := 2, assetURL := "http://o/x", startTime := 9,
    enteredTime := 9, jobUser := 7, jobDS := 5, lastUpdated := 10 }

/-- A user under tenant 3, which is neither tenant 2 nor an ancestor of
it: not authorized for `exDS` or for jobs created by `exCreator`. -/
def exOtherUser : TMUser := { id := 9, username := "eve", tenantID := 3 }

/-- The first Create payload of the specification's worked example:
`create(ds=5, assetURL="/path", start=..T00:00Z, ttl=4h)`, with times in
hours from the example's start. -/
def exCreate1 : CreateInput :=
  { dsid := 5, regex := "/path", startTime := 0, ttlHours := 4 }

/-- The second Create payload of the worked example:
`create(ds=5, assetURL="/path/sub", start=..T02:00Z, ttl=4h)`. -/
def exCreate2 : CreateInput :=
  { dsid := 5, regex := "/path/sub", startTime := 2, ttlHours := 4 }

/-- Environment in which every step succeeds. -/
def envAllOk : ExecEnv :=
  { authOk := true, mutationOk := true, revalOk := true, changelogOk := true }

/-- Environment in which only the flag propagation fails. -/
def envRevalFail : ExecEnv :=
  { authOk := true, mutationOk := true, revalOk := false, changelogOk := true }

/-- Environment in which only the change-log append fails. -/
def envChangelogFail : ExecEnv :=
  { authOk := true, mutationOk := true, revalOk := true, changelogOk := false }

/-! ## Helper lemmas -/

theorem isPrefixOf_self_append (l t : List Char) : l.isPrefixOf (l ++ t) = true := by
  induction l with
  | nil => simp [List.isPrefixOf]
  | cons h tl ih => simp [List.isPrefixOf, ih]

theorem goStartsWith_append (a b : String) : goStartsWith (a ++ b) a = true := by
  unfold goStartsWith
  rw [String.data_append]
  exact isPrefixOf_self_append a.data b.data

/-- `listMaxNat` is bounded by any bound on the list's elements. -/
theorem listMaxNat_le (l : List Nat) (c m : Nat) (hm : listMaxNat l = some m)
    (hb : ∀ x ∈ l, x ≤ c) : m ≤ c := by
  induction l generalizing m with
  | nil => simp [listMaxNat] at hm
  | cons x xs ih =>
    simp only [listMaxNat] at hm
    cases hx : listMaxNat xs with
    | none =>
      rw [hx] at hm
      cases hm
      exact hb x (by simp)
    | some m2 =>
      rw [hx] at hm
      cases hm
      have h1 : x ≤ c := hb x (by simp)
      have h2 : m2 ≤ c := ih m2 hx (fun y hy => hb y (by simp [hy]))
      exact Nat.max_le.mpr ⟨h1, h2⟩

/-! ## Claim C10 -/

/-- Claim C10 (confirmed): for every call to `SetUpdateServerStatusTimes`
with `configUpdateTime` nil, the request path contains no query parameters
at all — the `configApplyTime`, `revalUpdateTime` and `revalApplyTime`
arguments are silently dropped even when non-nil — although the call is
rejected with an error (and no request) exactly when all four time
arguments are nil. -/
theorem setUpdateServerStatusTimes_configUpdateTime_gates_all :
    (∀ name ca ru ra, ¬(ca = none ∧ ru = none ∧ ra = none) →
      setUpdateServerStatusTimesPath name none ca ru ra =
        Except.ok ("/servers/" ++ name ++ "/update?")) ∧
    (∀ name cu ca ru ra,
      (setUpdateServerStatusTimesPath name cu ca ru ra =
          Except.error allNilTimesErr ↔
        (cu = none ∧ ca = none ∧ ru = none ∧ ra = none))) := by
  constructor
  · intro name ca ru ra h
    cases ca <;> cases ru <;> cases ra <;>
      simp_all [setUpdateServerStatusTimesPath, String.intercalate,
        String.append_empty]
  · intro name cu ca ru ra
    cases cu <;> cases ca <;> cases ru <;> cases ra <;>
      simp [setUpdateServerStatusTimesPath, allNilTimesErr]

/-- Witness for C10 at a concrete input: `configUpdateTime` nil but
`configApplyTime` set still yields a parameterless path. -/
theorem setUpdateServerStatusTimes_gates_witness :
    setUpdateServerStatusTimesPath "srv" none (some "2024-01-01T00:00:00Z")
        none none =
      Except.ok ("/servers/" ++ "srv" ++ "/update?") :=
  setUpdateServerStatusTimes_configUpdateTime_gates_all.1 "srv"
    (some "2024-01-01T00:00:00Z") none none (by simp)

/-! ## Claim C1 -/

/-- Claim C1 counterexample: with authorization, the primary mutation and
the flag propagation succeeding and the change-log append failing, Create
writes the 200 success response before the change-log append, so the
request does not fail as an internal error. -/
theorem create_changelog_failure_still_succeeds :
    (CreateRun envChangelogFail).status = 200 ∧
    (CreateRun envChangelogFail).status ≠ 500 ∧
    (CreateRun envChangelogFail).trace =
      [Step.auth, Step.mutation, Step.reval, Step.conflictScan, Step.respond,
       Step.changelog] := by
  decide

/-- Claim C1 (amended): if the Revalidation Flag Propagator step fails
after the primary mutation succeeded, Create and Delete roll the whole
transaction back and fail as an internal error, and in every committed
state the flag propagation has run; the Change-Log append, however, runs
only after the success response has been written, so its failure rolls the
transaction back without failing the request. -/
theorem create_delete_reval_failure_rolls_back (env : ExecEnv) :
    (env.authOk = true → env.mutationOk = true → env.revalOk = false →
      (CreateRun env).status = 500 ∧ (CreateRun env).committed = false ∧
      (DeleteRun env).status = 500 ∧ (DeleteRun env).committed = false) ∧
    ((CreateRun env).committed = true → env.revalOk = true) ∧
    ((DeleteRun env).committed = true → env.revalOk = true) ∧
    (env.authOk = true → env.mutationOk = true → env.revalOk = true →
      env.changelogOk = false →
      (CreateRun env).status = 200 ∧ (CreateRun env).committed = false) := by
  obtain ⟨a, m, r, c⟩ := env
  cases a <;> cases m <;> cases r <;> cases c <;>
    simp [CreateRun, DeleteRun]

/-- Witness for the amended C1 at a concrete environment: a failing flag
propagation yields 500 with a rolled-back transaction for Create and
Delete. -/
theorem create_delete_reval_failure_witness :
    (CreateRun envRevalFail).status = 500 ∧
    (CreateRun envRevalFail).committed = false ∧
    (DeleteRun envRevalFail).status = 500 ∧
    (DeleteRun envRevalFail).committed = false :=
  (create_delete_reval_failure_rolls_back envRevalFail).1 rfl rfl rfl

/-! ## Claim C5 -/

/-- Claim C5 counterexample: on a fully successful Create, the Conflict
Validator scan runs after the primary mutation (indeed after the flag
propagation), not between the authorization check and the mutation as
claimed. -/
theorem create_scan_after_mutation :
    (CreateRun envAllOk).trace =
      [Step.auth, Step.mutation, Step.reval, Step.conflictScan, Step.respond,
       Step.changelog] ∧
    ¬ ((CreateRun envAllOk).trace.indexOf Step.conflictScan <
       (CreateRun envAllOk).trace.indexOf Step.mutation) := by
  decide

/-- Claim C5 (amended): for every mutating Create request that succeeds,
the steps execute in the order tenant-authorization check, then the
primary Job Store mutation, then the Flag Propagator write, then the
Conflict Validator scan, then the success response, then the Change-Log
append, all within the single request transaction. -/
theorem create_step_order (env : ExecEnv)
    (h : (CreateRun env).status = 200) :
    (CreateRun env).trace =
      [Step.auth, Step.mutation, Step.reval, Step.conflictScan, Step.respond,
       Step.changelog] := by
  obtain ⟨a, m, r, c⟩ := env
  revert h
  cases a <;> cases m <;> cases r <;> cases c <;> simp [CreateRun]

/-- Witness for the amended C5 at the all-success environment. -/
theorem create_step_order_witness :
    (CreateRun envAllOk).trace =
      [Step.auth, Step.mutation, Step.reval, Step.conflictScan, Step.respond,
       Step.changelog] :=
  create_step_order envAllOk (by decide)

/-! ## Shared lemmas about updateChecks, Create and the conflict scan -/

/-- A successful `updateChecks` pins down the stored row, the parsed ttl,
and the facts established by the checks it passed. -/
theorem updateChecks_ok (db : DB) (u : TMUser) (idp : Nat) (dok vok : Bool)
    (input : UpdateInput) (now : Nat) (job1 : JobRow) (ttl : Nat)
    (h : updateChecks db u idp dok vok input now = Except.ok (job1, ttl)) :
    db.findJob idp = some job1 ∧
    sqlNatCast (ttlStringFromParameters input.parameters) = some ttl ∧
    ∃ o, db.findOrigin job1.jobDS = some o ∧
      goStartsWith input.assetURL o.urlString = true ∧
      ¬ job1.startTime < now := by
  unfold updateChecks at h
  split at h
  · simp at h
  · next job2 heq1 =>
    split at h
    · next o1 creator1 d1 heq2 heq3 heq4 =>
      repeat' split at h
      all_goals simp_all
    · simp at h

/-- The conflict scan on a single existing job that satisfies all three
match conditions yields exactly that job's warning. -/
theorem validate_singleton (j : JobRow) (ds s : Nat) (url : String) (ttl : Nat)
    (h1 : j.jobDS = ds)
    (h2 : goStartsWith url j.assetURL = true ∨ goStartsWith j.assetURL url = true)
    (h3 : intervalsOverlap j.startTime j.ttlHr s ttl = true) :
    ValidateJobUniqueness [j] ds s url ttl = [conflictWarning j] := by
  rcases h2 with h | h <;> simp [ValidateJobUniqueness, h1, h, h3]

/-- An authorized Create against a delivery service with a primary origin
produces the success outcome in full. -/
theorem create_success_eq (db : DB) (u : TMUser) (inp : CreateInput) (now : Nat)
    (o : Origin)
    (hauth : (IsUserAuthorizedToModifyDSID db u inp.dsid).1 = true)
    (horig : db.findOrigin inp.dsid = some o) :
    Create db u inp now =
      { status := 200
        db := { db with
                jobs := db.jobs ++ [createdJob db u inp o now]
                changelog := db.changelog ++
                  ["Created content invalidation job - ID: " ++
                    toString (createdJob db u inp o now).id] }
        alerts :=
          (ValidateJobUniqueness db.jobs inp.dsid inp.startTime
            (createdJob db u inp o now).assetURL inp.ttlHours).map
              (fun c => { level := "warning", text := c }) ++
            [{ level := "success"
               text := successAlertText (createdJob db u inp o now).assetURL
                 inp.startTime inp.ttlHours }]
        job := some (createdJob db u inp o now) } := by
  simp [Create, hauth, horig]

/-! ## Claim C2 -/

/-- Claim C2 (confirmed): every job record produced by a successful Create
or Update has an assetURL beginning with the owning delivery service's
primary origin string (for Create it is the origin string concatenated
with the path fragment; for Update the handler validates the payload's
URL against the origin); and, once the request reaches validation (the
target job exists and both tenancy checks pass), every Update payload
whose assetURL violates the prefix fails with a bad-request error leaving
the store unchanged — as does every payload that fails to decode or to
validate, so no violating payload ever reaches the store. -/
theorem create_update_assetURL_origin_invariant :
    (∀ db u inp now j, (Create db u inp now).job = some j →
      ∃ o, db.findOrigin inp.dsid = some o ∧
        goStartsWith j.assetURL o.urlString = true) ∧
    (∀ db u idp dok vok input now job0 o j,
      db.findJob idp = some job0 → db.findOrigin job0.jobDS = some o →
      (Update db u idp dok vok input now).job = some j →
      goStartsWith j.assetURL o.urlString = true) ∧
    (∀ db u idp dok vok input now job0 o creator d,
      db.findJob idp = some job0 → db.findOrigin job0.jobDS = some o →
      db.findUserById job0.jobUser = some creator →
      db.findDS job0.jobDS = some d →
      (IsUserAuthorizedToModifyDSID db u job0.jobDS).1 = true →
      (IsUserAuthorizedToModifyJobsMadeByUsername db u creator.username).1 = true →
      goStartsWith input.assetURL o.urlString = false →
      (Update db u idp dok vok input now).status = 400 ∧
      (Update db u idp dok vok input now).db = db) := by
  refine ⟨?_, ?_, ?_⟩
  · intro db u inp now j hj
    unfold Create at hj
    split at hj
    · simp at hj
    · split at hj
      · simp at hj
      · next o ho =>
        refine ⟨o, ho, ?_⟩
        simp only [Option.some.injEq] at hj
        subst hj
        exact goStartsWith_append o.urlString inp.regex
  · intro db u idp dok vok input now job0 o j hjob ho hj
    unfold Update at hj
    split at hj
    · simp at hj
    · next job1 ttl1 heq =>
      obtain ⟨hfind, httl, o1, ho1, hpre1, hstart1⟩ :=
        updateChecks_ok db u idp dok vok input now job1 ttl1 heq
      rw [hjob] at hfind
      injection hfind with hfind
      subst hfind
      rw [ho] at ho1
      injection ho1 with ho1
      subst ho1
      simp at hj
      subst hj
      simpa using hpre1
  · intro db u idp dok vok input now job0 o creator d hjob ho hc hd hads hau hpre
    cases dok <;> cases vok <;>
      simp [Update, updateChecks, hjob, ho, hc, hd, hads, hau, hpre]

/-- Witness for C2 at a concrete input: on a stored future job with an
authorized user, a payload whose assetURL is not prefixed by the origin
fails with 400 and leaves the store unchanged. -/
theorem assetURL_origin_invariant_witness :
    (Update exDBFuture exUser 1 true true exBadInput 5).status = 400 ∧
    (Update exDBFuture exUser 1 true true exBadInput 5).db = exDBFuture :=
  create_update_assetURL_origin_invariant.2.2 exDBFuture exUser 1 true true
    exBadInput 5 exJobFuture exOrigin exCreator exDS (by decide) (by decide)
    (by decide) (by decide) (by decide) (by decide) (by decide)

/-! ## Claim C3 -/

/-- Claim C3 counterexample: an Update targeting an already-started job
(stored startTime 0, now 5) with a payload whose assetURL is not prefixed
by the origin fails with 400, not with the claimed method-not-allowed 405:
the prefix validation (line 522) runs before the already-started check
(line 529), so the 405 does not hold for every payload content. -/
theorem update_started_bad_payload_400 :
    exJobStarted.startTime < 5 ∧
    (Update exDBStarted exUser 1 true true exBadInput 5).status = 400 ∧
    (Update exDBStarted exUser 1 true true exBadInput 5).status ≠ 405 := by
  decide

/-- Claim C3 (amended): an Update targeting a job whose stored startTime
is strictly before now fails with method-not-allowed and an unchanged
store, provided the payload decodes, passes validation and carries an
origin-prefixed assetURL; payloads failing any of those earlier checks
fail with bad-request instead. -/
theorem update_started_405 (db : DB) (u : TMUser) (idp : Nat)
    (input : UpdateInput) (now : Nat) (job0 : JobRow) (o : Origin)
    (creator : TMUser) (d : DeliveryService)
    (hjob : db.findJob idp = some job0)
    (ho : db.findOrigin job0.jobDS = some o)
    (hc : db.findUserById job0.jobUser = some creator)
    (hd : db.findDS job0.jobDS = some d)
    (hads : (IsUserAuthorizedToModifyDSID db u job0.jobDS).1 = true)
    (hau : (IsUserAuthorizedToModifyJobsMadeByUsername db u creator.username).1 = true)
    (hpre : goStartsWith input.assetURL o.urlString = true)
    (hstart : job0.startTime < now) :
    (Update db u idp true true input now).status = 405 ∧
    (Update db u idp true true input now).db = db := by
  simp [Update, updateChecks, hjob, ho, hc, hd, hads, hau, hpre, hstart]

/-- Witness for the amended C3 at a concrete input: a well-formed,
origin-prefixed payload against the started job yields 405 and leaves the
store unchanged. -/
theorem update_started_405_witness :
    (Update exDBStarted exUser 1 true true exGoodInput 5).status = 405 ∧
    (Update exDBStarted exUser 1 true true exGoodInput 5).db = exDBStarted :=
  update_started_405 exDBStarted exUser 1 exGoodInput 5 exJobStarted exOrigin
    exCreator exDS (by decide) (by decide) (by decide) (by decide) (by decide)
    (by decide) (by decide) (by decide)

/-! ## Claim C4 -/

/-- Claim C4 (confirmed): the authorization check returns `(false, nil)` —
denial without an error — when the target delivery service does not exist,
and the Update handler classifies an absent target job and a
tenancy-denied delivery service with the same not-found status 404 (and an
untouched store), never a distinct forbidden status. -/
theorem authorization_absent_uniform_404 :
    (∀ db u ds, db.findDS ds = none →
      IsUserAuthorizedToModifyDSID db u ds = (false, none)) ∧
    (∀ db u idp dok vok input now, db.findJob idp = none →
      (Update db u idp dok vok input now).status = 404 ∧
      (Update db u idp dok vok input now).db = db) ∧
    (∀ db u idp dok vok input now job0 o creator d,
      db.findJob idp = some job0 → db.findOrigin job0.jobDS = some o →
      db.findUserById job0.jobUser = some creator →
      db.findDS job0.jobDS = some d →
      (IsUserAuthorizedToModifyDSID db u job0.jobDS).1 = false →
      (Update db u idp dok vok input now).status = 404 ∧
      (Update db u idp dok vok input now).db = db) := by
  refine ⟨?_, ?_, ?_⟩
  · intro db u ds h
    unfold IsUserAuthorizedToModifyDSID
    rw [h]
  · intro db u idp dok vok input now h
    simp [Update, updateChecks, h]
  · intro db u idp dok vok input now job0 o creator d hjob ho hc hd hads
    simp [Update, updateChecks, hjob, ho, hc, hd, hads]

/-- Witness for C4 at a concrete input: a user from tenant 3 (not an
ancestor of the job's tenant 2) receives 404 from Update with an untouched
store. -/
theorem authorization_absent_uniform_404_witness :
    (Update exDBFuture exOtherUser 1 true true exGoodInput 5).status = 404 ∧
    (Update exDBFuture exOtherUser 1 true true exGoodInput 5).db = exDBFuture :=
  authorization_absent_uniform_404.2.2 exDBFuture exOtherUser 1 true true
    exGoodInput 5 exJobFuture exOrigin exCreator exDS (by decide) (by decide)
    (by decide) (by decide) (by decide)

/-! ## Claim C9 -/

/-- Claim C9 (confirmed): the ttl stored by every successful Update is the
integer parsed from the payload's parameters display string with the
prefix `TTL:` and the suffix `h` stripped — a pure function of the
parameters string, with no separate ttlHours payload field involved;
`TTL:48h` yields 48. -/
theorem update_ttl_from_parameters_string :
    (∀ db u idp dok vok input now j,
      (Update db u idp dok vok input now).job = some j →
      sqlNatCast (ttlStringFromParameters input.parameters) = some j.ttlHr) ∧
    ttlStringFromParameters "TTL:48h" = "48" ∧
    sqlNatCast "48" = some 48 := by
  refine ⟨?_, by decide, by decide⟩
  intro db u idp dok vok input now j hj
  unfold Update at hj
  split at hj
  · simp at hj
  · next job1 ttl1 heq =>
    obtain ⟨hfind, httl, o1, ho1, hpre1, hstart1⟩ :=
      updateChecks_ok db u idp dok vok input now job1 ttl1 heq
    simp at hj
    subst hj
    simpa using httl

/-- Witness for C9 at a concrete input: the successful Update of the
future job with parameters `TTL:48h` stores ttl 48. -/
theorem update_ttl_from_parameters_witness :
    sqlNatCast (ttlStringFromParameters exGoodInput.parameters) =
      some exUpdatedJob.ttlHr :=
  update_ttl_from_parameters_string.1 exDBFuture exUser 1 true true exGoodInput
    5 exUpdatedJob (by decide)

/-! ## Claim C8 -/

/-- Claim C8 (confirmed): two Create requests for the same delivery
service whose intervals `[startTime, startTime + ttlHours)` intersect and
whose asset URLs are path-prefix related in either direction both succeed
— the Conflict Validator never blocks — and the second response carries
exactly one warning-level alert referencing the first job's id, followed
by its success alert. -/
theorem create_overlap_single_warning (db : DB) (u : TMUser)
    (inp1 inp2 : CreateInput) (t1 t2 : Nat) (o : Origin)
    (hjobs : db.jobs = [])
    (hds : inp2.dsid = inp1.dsid)
    (horig : db.findOrigin inp1.dsid = some o)
    (hauth : (IsUserAuthorizedToModifyDSID db u inp1.dsid).1 = true)
    (hover : intervalsOverlap inp1.startTime inp1.ttlHours inp2.startTime
      inp2.ttlHours = true)
    (hpre : goStartsWith (o.urlString ++ inp2.regex) (o.urlString ++ inp1.regex)
        = true ∨
      goStartsWith (o.urlString ++ inp1.regex) (o.urlString ++ inp2.regex)
        = true) :
    (Create db u inp1 t1).status = 200 ∧
    (Create (Create db u inp1 t1).db u inp2 t2).status = 200 ∧
    ∃ j1, (Create db u inp1 t1).job = some j1 ∧
      (Create (Create db u inp1 t1).db u inp2 t2).alerts =
        [{ level := "warning", text := conflictWarning j1 },
         { level := "success",
           text := successAlertText (o.urlString ++ inp2.regex) inp2.startTime
             inp2.ttlHours }] := by
  have e1 := create_success_eq db u inp1 t1 o hauth horig
  have hauth2 : (IsUserAuthorizedToModifyDSID (Create db u inp1 t1).db u
      inp2.dsid).1 = true := by
    rw [e1, hds]; exact hauth
  have horig2 : ((Create db u inp1 t1).db).findOrigin inp2.dsid = some o := by
    rw [e1, hds]; exact horig
  have hjobs1 : ((Create db u inp1 t1).db).jobs =
      [createdJob db u inp1 o t1] := by
    rw [e1]; simp [hjobs]
  have e2 := create_success_eq ((Create db u inp1 t1).db) u inp2 t2 o hauth2
    horig2
  refine ⟨?_, ?_, ⟨createdJob db u inp1 o t1, ?_, ?_⟩⟩
  · rw [e1]
  · rw [e2]
  · rw [e1]
  · rw [e2, hjobs1]
    rcases hpre with h | h <;>
      simp [ValidateJobUniqueness, createdJob, hds, hover, h, conflictWarning,
        successAlertText]

/-- Witness for C8 at the specification's worked example: jobs on paths
`/path` and `/path/sub` with windows 00-04 and 02-06 on delivery service 5
both succeed, and the second response is exactly one warning naming the
first job plus the success alert. -/
theorem create_overlap_single_warning_witness :
    (Create exDBEmpty exUser exCreate1 0).status = 200 ∧
    (Create (Create exDBEmpty exUser exCreate1 0).db exUser exCreate2 1).status
      = 200 ∧
    ∃ j1, (Create exDBEmpty exUser exCreate1 0).job = some j1 ∧
      (Create (Create exDBEmpty exUser exCreate1 0).db exUser exCreate2
          1).alerts =
        [{ level := "warning", text := conflictWarning j1 },
         { level := "success",
           text := successAlertText (exOrigin.urlString ++ exCreate2.regex)
             exCreate2.startTime exCreate2.ttlHours }] :=
  create_overlap_single_warning exDBEmpty exUser exCreate1 exCreate2 0 1
    exOrigin rfl rfl (by decide) (by decide) (by decide) (Or.inl (by decide))

/-! ## Claim C6 -/

/-- Claim C6 counterexample: a Read request with no query parameters gets
a WHERE clause containing the tenant-scoping conjunct but no
recency-window conjunct, while a request carrying the
`maxRevalDurationDays` parameter does get it — so the recency window is
not applied on every Read and is caller-controlled. -/
theorem read_recency_caller_gated :
    (readWhere []).contains ReadPred.recencyWindow = false ∧
    ReadPred.tenantScope ∈ readWhere [] ∧
    (readWhere [("maxRevalDurationDays", "1")]).contains ReadPred.recencyWindow
      = true := by
  decide

/-- Claim C6 (amended): the effective Read predicate always conjoins the
server-side tenant-scoping conjunct, the caller's filters never escape the
allow-list, but the recency-window conjunct is added exactly when the
request itself carries the `maxRevalDurationDays` parameter; the window
size comes from global configuration and defaults to 90 days when the
configuration value is absent. -/
theorem read_where_shape (params : List (String × String)) :
    ReadPred.tenantScope ∈ readWhere params ∧
    (ReadPred.recencyWindow ∈ readWhere params ↔
      hasParam params "maxRevalDurationDays" = true) ∧
    (∀ f v, ReadPred.callerFilter f v ∈ readWhere params →
      f ∈ allowedFilterKeys) ∧
    maxRevalDurationDaysValue [] = "90" := by
  refine ⟨?_, ⟨?_, ?_⟩, ?_, rfl⟩
  · simp [readWhere]
  · intro h
    simp only [readWhere] at h
    split_ifs at h with h1 h2 <;>
      simp_all [buildCallerFilters, List.mem_append, List.mem_map]
  · intro h
    simp [readWhere, h]
  · intro f v h
    simp only [readWhere] at h
    split_ifs at h <;>
      simp_all [buildCallerFilters, List.mem_append, List.mem_map,
        List.mem_filter]

/-- Witness for the amended C6 at a concrete input: a Read filtered only
by id keeps the tenant conjunct, has no recency conjunct, and its filters
stay inside the allow-list. -/
theorem read_where_shape_witness :
    ReadPred.tenantScope ∈ readWhere [("id", "4")] ∧
    (ReadPred.recencyWindow ∈ readWhere [("id", "4")] ↔
      hasParam [("id", "4")] "maxRevalDurationDays" = true) ∧
    (∀ f v, ReadPred.callerFilter f v ∈ readWhere [("id", "4")] →
      f ∈ allowedFilterKeys) ∧
    maxRevalDurationDaysValue [] = "90" :=
  read_where_shape [("id", "4")]

/-! ## Claim C7 -/

/-- Claim C7 counterexample: a tombstone at time 5 and a matching live job
last updated at 10 make a conditional Read with cutoff 7 — at or after the
deletion's timestamp — return 200 with materialized rows, not the claimed
not-modified result. -/
theorem conditional_read_deletion_cutoff_insufficient :
    ((5 : Nat) ∈ ([5] : List Nat) ∧ (5 : Nat) ≤ 7) ∧
    (ReadIMS [exJobFresh] [5] (fun _ => true) 7).status = 200 ∧
    (ReadIMS [exJobFresh] [5] (fun _ => true) 7).status ≠ 304 := by
  decide

/-- Claim C7 (amended): the conditional Read computes the maximum
last-modified timestamp over the matching live jobs together with all of
the job table's deletion tombstones before any row scan, and returns
not-modified with no materialized rows when the caller's cutoff is at or
after this maximum — in particular when the cutoff is at or after every
matching live job's last-modified and at or after every tombstone
timestamp (such as a deletion's), but not merely at or after one deletion
timestamp. -/
theorem conditional_read_max_cutoff (jobs : List JobRow) (ld : List Nat)
    (sel : JobRow → Bool) (cutoff m : Nat)
    (hm : maxLastUpdated jobs sel ld = some m) :
    (m ≤ cutoff →
      ReadIMS jobs ld sel cutoff = { status := 304, rows := [] }) ∧
    ((∀ j ∈ jobs.filter sel, j.lastUpdated ≤ cutoff) →
      (∀ d ∈ ld, d ≤ cutoff) →
      ReadIMS jobs ld sel cutoff = { status := 304, rows := [] }) := by
  constructor
  · intro h
    simp [ReadIMS, hm, h]
  · intro h1 h2
    have hb : m ≤ cutoff := by
      unfold maxLastUpdated at hm
      apply listMaxNat_le _ cutoff m hm
      intro x hx
      rcases List.mem_append.mp hx with h | h
      · rcases List.mem_map.mp h with ⟨j, hj, rfl⟩
        exact h1 j hj
      · exact h2 x h
    simp [ReadIMS, hm, hb]

/-- Witness for the amended C7 at a concrete input: cutoff 12, at or after
both the live job's last-modified 10 and the tombstone 5, yields the
not-modified outcome with no rows. -/
theorem conditional_read_max_cutoff_witness :
    ReadIMS [exJobFresh] [5] (fun _ => true) 12 = { status := 304, rows := [] } :=
  (conditional_read_max_cutoff [exJobFresh] [5] (fun _ => true) 12 10
    (by decide)).1 (by decide)
